import Mathlib

/-!
Shallow embedding of the freestanding C programs in `src/examples/` of
mini-elf-linker-jl: a syscall trampoline plus output, termination and
length primitives built on it (hello_world.c, printf_stub.c, simple_exit.c,
simple_test.c, working_hello.c, inline_hello.c).

Modelling choices:
  - Process memory is `mem : Nat → Nat`, one byte (as a `Nat`) per address.
  - The externally observable environment is `KernelState`: the bytes so far
    visible on standard output, and whether the process has exited (and with
    which status). Per the platform ABI described in the spec, once the
    process has exited no further instruction of it executes, so a syscall
    issued on an exited state is a no-op; the environment truncates the exit
    status to its low 8 bits (`% 256`).
  - The kernel's reply to a write request is an oracle
    `kw : Int → Int → Int → Int` (fd, buf, count ↦ raw result), so that
    success, failure (negative result) and short writes can all be modelled;
    `okKernel` is the deterministic oracle that accepts every write in full,
    matching the spec's "destination stream known to accept the full write".
  - The C `while (s[len]) len++;` loop is embedded with explicit fuel:
    `none` means the loop would have run past the given fuel (the
    undefined-behaviour case of a missing terminator).
-/

namespace MiniElf

/-- Syscall number for write on Linux x86_64, `#define SYS_WRITE 1`. -/
def SYS_WRITE : Int := 1

/-- Syscall number for exit on Linux x86_64, `#define SYS_EXIT 60`. -/
def SYS_EXIT : Int := 60

/-- Standard output handle, `#define STDOUT_FILENO 1`. -/
def STDOUT_FILENO : Int := 1

/-- Externally observable state of the process environment: the bytes visible
on standard output so far, and `some s` once the process has exited with
status `s` (already truncated by the environment to `s % 256`). -/
structure KernelState where
  stdout : List Nat
  exited : Option Int
deriving DecidableEq, Repr

/-- Bytes `mem[a], mem[a+1], …, mem[a+n-1]` of process memory. -/
def readBytes (mem : Nat → Nat) (a n : Nat) : List Nat :=
  (List.range n).map (fun i => mem (a + i))

/-- Semantics of one raw `syscall` trap on Linux x86_64, as described by the
spec's platform ABI section. If the process has already exited, nothing
executes. `SYS_EXIT` records the status truncated to 8 bits by the
environment. `SYS_WRITE` asks the oracle `kw` for the raw result: a negative
result is a kernel failure with no effect; a non-negative result `r` means
`r` bytes were transferred, visible on standard output when the handle is
`STDOUT_FILENO`. Any other number is an unimplemented operation (ENOSYS).
The trap always yields a single machine-word result; it cannot raise a
language-level error, which is reflected in the plain (non-`Except`) result
type. -/
def kernelStep (kw : Int → Int → Int → Int) (mem : Nat → Nat)
    (st : KernelState) (number a1 a2 a3 : Int) : KernelState × Int :=
  if st.exited.isSome then (st, 0)
  else if number = SYS_EXIT then ({ st with exited := some (a1 % 256) }, 0)
  else if number = SYS_WRITE then
    let r := kw a1 a2 a3
    if 0 ≤ r then
      (if a1 = STDOUT_FILENO then
        { st with stdout := st.stdout ++ readBytes mem a2.toNat r.toNat }
       else st, r)
    else (st, r)
  else (st, -38)

/-- Write oracle of a kernel that accepts every write in full: the result is
the requested count, as in the spec's captured-standard-output test setup. -/
def okKernel : Int → Int → Int → Int := fun _ _ count => count

namespace HelloWorld

/-- Embedding of `syscall` from hello_world.c: the trampoline places
`number`, `arg1..arg3` in the registers the kernel expects, executes the
trap, and returns the raw signed result. Its semantics is one `kernelStep`. -/
def syscall (kw : Int → Int → Int → Int) (mem : Nat → Nat) (st : KernelState)
    (number arg1 arg2 arg3 : Int) : KernelState × Int :=
  kernelStep kw mem st number arg1 arg2 arg3

/-- Embedding of `write` from hello_world.c:
`return syscall(SYS_WRITE, fd, (long)buf, count);`. -/
def write (kw : Int → Int → Int → Int) (mem : Nat → Nat) (st : KernelState)
    (fd buf count : Int) : KernelState × Int :=
  syscall kw mem st SYS_WRITE fd buf count

/-- Embedding of `exit` from hello_world.c:
`syscall(SYS_EXIT, status, 0, 0); __builtin_unreachable();`. The function
returns no value to its caller; only the resulting state remains. -/
def exit (kw : Int → Int → Int → Int) (mem : Nat → Nat) (st : KernelState)
    (status : Int) : KernelState :=
  (syscall kw mem st SYS_EXIT status 0 0).1

/-- Loop body of `strlen` from hello_world.c: `while (s[len]) len++;`,
scanning memory from address `a` at offset `len`, with explicit fuel
(`none` = the loop exceeded the fuel, i.e. no terminator was found). -/
def strlenAux (mem : Nat → Nat) (a : Nat) : Nat → Nat → Option Nat
  | 0, _ => none
  | fuel + 1, len => if mem (a + len) = 0 then some len else strlenAux mem a fuel (len + 1)

/-- Embedding of `strlen` from hello_world.c: starts the scan at `len = 0`. -/
def strlen (mem : Nat → Nat) (a : Nat) (fuel : Nat) : Option Nat :=
  strlenAux mem a fuel 0

/-- Embedding of `print` from hello_world.c:
`write(STDOUT_FILENO, str, strlen(str));`. -/
def print (kw : Int → Int → Int → Int) (mem : Nat → Nat) (fuel : Nat)
    (st : KernelState) (strA : Nat) : Option (KernelState × Int) :=
  (strlen mem strA fuel).map
    (fun len => write kw mem st STDOUT_FILENO (Int.ofNat strA) (Int.ofNat len))

/-- The bytes of the C string literal "Hello World!\n" (13 bytes). -/
def helloStr : List Nat := [72, 101, 108, 108, 111, 32, 87, 111, 114, 108, 100, 33, 10]

/-- Memory holding "Hello World!\n" with its null terminator at address 0. -/
def helloMem : Nat → Nat := fun a => (helloStr ++ [0]).getD a 0

/-- Embedding of `main` from hello_world.c:
`print("Hello World!\n"); exit(0); return 0;` — the final `return 0` is
behind `exit`, hence not represented (the process is gone). -/
def main (kw : Int → Int → Int → Int) (st : KernelState) : Option KernelState :=
  (print kw helloMem 14 st 0).map (fun p => exit kw helloMem p.1 0)

end HelloWorld

namespace PrintfStub

/-- Embedding of `sys_write` from printf_stub.c: its inline-asm trampoline
issues one write trap with `SYS_WRITE`, `fd`, `buf`, `count`. -/
def sys_write (kw : Int → Int → Int → Int) (mem : Nat → Nat) (st : KernelState)
    (fd buf count : Int) : KernelState × Int :=
  kernelStep kw mem st SYS_WRITE fd buf count

/-- Loop body of `my_strlen` from printf_stub.c (`while (s[len]) len++;`),
textually the same loop as hello_world.c's `strlen`. -/
def my_strlenAux (mem : Nat → Nat) (a : Nat) : Nat → Nat → Option Nat
  | 0, _ => none
  | fuel + 1, len => if mem (a + len) = 0 then some len else my_strlenAux mem a fuel (len + 1)

/-- Embedding of `my_strlen` from printf_stub.c. -/
def my_strlen (mem : Nat → Nat) (a : Nat) (fuel : Nat) : Option Nat :=
  my_strlenAux mem a fuel 0

/-- Embedding of `printf` from printf_stub.c:
`sys_write(1, format, my_strlen(format)); return my_strlen(format);` —
`my_strlen` is called twice in the source and twice here; the variadic
arguments are never consumed, exactly as in the source. -/
def printf (kw : Int → Int → Int → Int) (mem : Nat → Nat) (fuel : Nat)
    (st : KernelState) (format : Nat) : Option (KernelState × Int) :=
  match my_strlen mem format fuel with
  | none => none
  | some len =>
    let p := sys_write kw mem st 1 (Int.ofNat format) (Int.ofNat len)
    match my_strlen mem format fuel with
    | none => none
    | some len2 => some (p.1, Int.ofNat len2)

end PrintfStub

namespace SimpleExit

/-- Embedding of `exit` from simple_exit.c: its inline asm moves `status`
into edi, 60 into eax and traps; `__builtin_unreachable()` follows. -/
def exit (kw : Int → Int → Int → Int) (mem : Nat → Nat) (st : KernelState)
    (status : Int) : KernelState :=
  (kernelStep kw mem st SYS_EXIT status 0 0).1

/-- Embedding of `main` from simple_exit.c: `exit(42); return 0;` (the
`return 0` is dead code). -/
def main (kw : Int → Int → Int → Int) (st : KernelState) : KernelState :=
  exit kw (fun _ => 0) st 42

end SimpleExit

namespace WorkingHello

/-- Embedding of `write_syscall` from working_hello.c: inline asm issuing one
write trap with eax=1, edi=fd, rsi=buf, edx=count and returning eax. -/
def write_syscall (kw : Int → Int → Int → Int) (mem : Nat → Nat) (st : KernelState)
    (fd buf count : Int) : KernelState × Int :=
  kernelStep kw mem st SYS_WRITE fd buf count

/-- Embedding of `exit_syscall` from working_hello.c: inline asm issuing one
exit trap with eax=60, edi=code. -/
def exit_syscall (kw : Int → Int → Int → Int) (mem : Nat → Nat) (st : KernelState)
    (code : Int) : KernelState :=
  (kernelStep kw mem st SYS_EXIT code 0 0).1

/-- The global `const char hello_msg[] = "Hello World!\n";` (13 bytes). -/
def hello_msg : List Nat := [72, 101, 108, 108, 111, 32, 87, 111, 114, 108, 100, 33, 10]

/-- Memory holding `hello_msg` with its null terminator at address 0. -/
def hello_msg_mem : Nat → Nat := fun a => (hello_msg ++ [0]).getD a 0

/-- Embedding of `main` from working_hello.c:
`write_syscall(1, hello_msg, 13); exit_syscall(0); return 0;`. -/
def main (kw : Int → Int → Int → Int) (st : KernelState) : KernelState :=
  let p := write_syscall kw hello_msg_mem st 1 0 13
  exit_syscall kw hello_msg_mem p.1 0

end WorkingHello

namespace InlineHello

/-- Embedding of `main` from inline_hello.c: one inline-asm block issuing a
write trap (rax=1, rdi=1, rsi=hello_msg, rdx=13) followed by an exit trap
(rax=60, rdi=0); the trailing `return 0` is never reached. The embedded
`.ascii "Hello World!\n"` data lives at address 0 of its memory. -/
def main (kw : Int → Int → Int → Int) (st : KernelState) : KernelState :=
  let p := kernelStep kw WorkingHello.hello_msg_mem st 1 1 0 13
  (kernelStep kw WorkingHello.hello_msg_mem p.1 60 0 0 0).1

end InlineHello

namespace SimpleTest

/-- Embedding of `int global_number = 100;` from simple_test.c. -/
def global_number : Int := 100

/-- Embedding of `add_two_numbers` from simple_test.c: `return a + b;`. -/
def add_two_numbers (a b : Int) : Int := a + b

/-- Embedding of `main` from simple_test.c:
`int result = add_two_numbers(global_number, 42); return result % 256;`
(C `%` agrees with `Int.emod` on these non-negative operands). -/
def main : Int :=
  let result := add_two_numbers global_number 42
  result % 256

/-- Modelled from the spec: simple_test.c performs no syscall itself; the
spec's entry-program contract says the environment surfaces `main`'s return
value as the process exit status ("a program that computes (100 + 42) mod 256
and terminates with that value"), i.e. the return feeds the exit path. -/
def run (kw : Int → Int → Int → Int) (st : KernelState) : KernelState :=
  (kernelStep kw (fun _ => 0) st SYS_EXIT main 0 0).1

end SimpleTest

/-! Helper lemmas shared by the claim theorems. -/

/-- When the first `L` bytes after `a + len` are nonzero and byte `a + L` is
zero, the scanning loop of hello_world.c's `strlen` returns `L` given enough
fuel. -/
theorem strlenAux_first_zero (mem : Nat → Nat) (a L : Nat)
    (hnz : ∀ i, i < L → mem (a + i) ≠ 0) (hz : mem (a + L) = 0) :
    ∀ fuel len, len ≤ L → L - len < fuel →
      HelloWorld.strlenAux mem a fuel len = some L := by
  intro fuel
  induction fuel with
  | zero => intro len _ h; omega
  | succ f ih =>
    intro len hle hlt
    rcases Nat.eq_or_lt_of_le hle with h | h
    · subst h
      simp [HelloWorld.strlenAux, hz]
    · have hne := hnz len h
      have hstep : HelloWorld.strlenAux mem a (f + 1) len
          = HelloWorld.strlenAux mem a f (len + 1) := by
        simp [HelloWorld.strlenAux, hne]
      rw [hstep]
      exact ih (len + 1) h (by omega)

/-- The scanning loops of `my_strlen` (printf_stub.c) and `strlen`
(hello_world.c) are the same function. -/
theorem my_strlenAux_eq (mem : Nat → Nat) (a : Nat) :
    ∀ fuel len, PrintfStub.my_strlenAux mem a fuel len = HelloWorld.strlenAux mem a fuel len := by
  intro fuel
  induction fuel with
  | zero => intro len; rfl
  | succ f ih =>
    intro len
    simp [PrintfStub.my_strlenAux, HelloWorld.strlenAux, ih]

/-- C2: for every byte sequence whose first zero byte is at index `L`
(bytes `0..L-1` nonzero, byte `L` zero), the length primitives `strlen`
(hello_world.c) and `my_strlen` (printf_stub.c) return exactly `L` — in
particular `0` when the first byte is zero — given fuel for the scan. -/
theorem C2_strlen_counts_to_first_zero (mem : Nat → Nat) (a L fuel : Nat)
    (hnz : ∀ i, i < L → mem (a + i) ≠ 0) (hz : mem (a + L) = 0) (hf : L < fuel) :
    HelloWorld.strlen mem a fuel = some L ∧ PrintfStub.my_strlen mem a fuel = some L := by
  have h := strlenAux_first_zero mem a L hnz hz fuel 0 (Nat.zero_le L) (by omega)
  refine ⟨h, ?_⟩
  rw [PrintfStub.my_strlen, my_strlenAux_eq]
  exact h

/-- Witness for C2 at the "Hello World!\n" memory: first zero at index 13. -/
theorem C2_witness :
    (∀ i, i < 13 → HelloWorld.helloMem (0 + i) ≠ 0) ∧ HelloWorld.helloMem (0 + 13) = 0 ∧
    (HelloWorld.strlen HelloWorld.helloMem 0 14 = some 13 ∧
      PrintfStub.my_strlen HelloWorld.helloMem 0 14 = some 13) :=
  ⟨by decide, by decide,
    C2_strlen_counts_to_first_zero HelloWorld.helloMem 0 13 14 (by decide) (by decide)
      (by decide)⟩

/-- C3: the output primitives `write` (hello_world.c) and `sys_write`
(printf_stub.c) return exactly the trampoline's result on the platform write
code 1, the handle, the buffer address and the count — no other computation,
no validation. -/
theorem C3_write_delegates (kw : Int → Int → Int → Int) (mem : Nat → Nat)
    (st : KernelState) (fd buf count : Int) :
    SYS_WRITE = 1 ∧
    HelloWorld.write kw mem st fd buf count
      = HelloWorld.syscall kw mem st SYS_WRITE fd buf count ∧
    PrintfStub.sys_write kw mem st fd buf count
      = kernelStep kw mem st SYS_WRITE fd buf count :=
  ⟨rfl, rfl, rfl⟩

/-- C4: every invocation of the syscall trampoline yields a machine-word
result (the embedding's plain, non-`Except` result type: no language-level
error); a result in the negative range is a failure with no effect on the
state, and every non-negative result is a success — for a write request on
standard output, the number of bytes transferred (appended verbatim). -/
theorem C4_syscall_result_convention (kw : Int → Int → Int → Int) (mem : Nat → Nat)
    (st : KernelState) (n a1 a2 a3 : Int) :
    ((kernelStep kw mem st n a1 a2 a3).2 < 0 ∧ (kernelStep kw mem st n a1 a2 a3).1 = st) ∨
    (0 ≤ (kernelStep kw mem st n a1 a2 a3).2 ∧
      (n = SYS_WRITE ∧ a1 = STDOUT_FILENO ∧ st.exited = none →
        (kernelStep kw mem st n a1 a2 a3).1.stdout
          = st.stdout ++ readBytes mem a2.toNat (kernelStep kw mem st n a1 a2 a3).2.toNat)) := by
  by_cases he : st.exited.isSome
  · right
    refine ⟨by simp [kernelStep, he], ?_⟩
    intro h
    exact absurd h.2.2 (by simp [Option.isSome_iff_exists] at he; rcases he with ⟨s, hs⟩; simp [hs])
  · by_cases hn : n = SYS_EXIT
    · right
      refine ⟨by simp [kernelStep, he, hn], ?_⟩
      intro h
      exact absurd (hn.symm.trans h.1) (by decide)
    · by_cases hw : n = SYS_WRITE
      · by_cases hr : 0 ≤ kw a1 a2 a3
        · right
          refine ⟨by simp [kernelStep, SYS_WRITE, SYS_EXIT, he, hn, hw, hr], ?_⟩
          intro h
          have hfd := h.2.1
          simp only [STDOUT_FILENO] at hfd
          subst hfd
          simp [kernelStep, SYS_WRITE, SYS_EXIT, STDOUT_FILENO, he, hn, hw, hr]
        · left
          have hr' : kw a1 a2 a3 < 0 := by omega
          exact ⟨by simp [kernelStep, SYS_WRITE, SYS_EXIT, he, hn, hw, hr, hr'],
            by simp [kernelStep, SYS_WRITE, SYS_EXIT, he, hn, hw, hr]⟩
      · left
        exact ⟨by simp [kernelStep, he, hn, hw], by simp [kernelStep, he, hn, hw]⟩

/-- Witness for C4: a concrete write invocation on the running initial state. -/
theorem C4_witness :
    ((kernelStep okKernel HelloWorld.helloMem ⟨[], none⟩ 1 1 0 13).2 < 0 ∧
      (kernelStep okKernel HelloWorld.helloMem ⟨[], none⟩ 1 1 0 13).1 = ⟨[], none⟩) ∨
    (0 ≤ (kernelStep okKernel HelloWorld.helloMem ⟨[], none⟩ 1 1 0 13).2 ∧
      ((1 : Int) = SYS_WRITE ∧ (1 : Int) = STDOUT_FILENO ∧
          (⟨[], none⟩ : KernelState).exited = none →
        (kernelStep okKernel HelloWorld.helloMem ⟨[], none⟩ 1 1 0 13).1.stdout
          = ([] : List Nat) ++ readBytes HelloWorld.helloMem (0 : Int).toNat
              (kernelStep okKernel HelloWorld.helloMem ⟨[], none⟩ 1 1 0 13).2.toNat)) :=
  C4_syscall_result_convention okKernel HelloWorld.helloMem ⟨[], none⟩ 1 1 0 13

/-- C1: the termination primitive never returns control to its caller: after
the exit trap the exit status is recorded and any subsequent trap of the
process (any operation, arguments, oracle, memory) leaves the state
unchanged, so any code placed after the call site is dead; and the variants
`exit` (simple_exit.c) and `exit_syscall` (working_hello.c) are the same
operation as hello_world.c's `exit`. -/
theorem C1_exit_never_returns (kw kw2 : Int → Int → Int → Int) (mem mem2 : Nat → Nat)
    (st : KernelState) (status n a1 a2 a3 : Int) (h : st.exited = none) :
    (HelloWorld.exit kw mem st status).exited = some (status % 256) ∧
    kernelStep kw2 mem2 (HelloWorld.exit kw mem st status) n a1 a2 a3
      = (HelloWorld.exit kw mem st status, 0) ∧
    SimpleExit.exit kw mem st status = HelloWorld.exit kw mem st status ∧
    WorkingHello.exit_syscall kw mem st status = HelloWorld.exit kw mem st status := by
  have hex : (HelloWorld.exit kw mem st status).exited = some (status % 256) := by
    simp [HelloWorld.exit, HelloWorld.syscall, kernelStep, h]
  refine ⟨hex, ?_, rfl, rfl⟩
  simp [kernelStep, hex]

/-- Witness for C1 at status 7 from the running initial state. -/
theorem C1_witness :
    (⟨[], none⟩ : KernelState).exited = none ∧
    ((HelloWorld.exit okKernel (fun _ => 0) ⟨[], none⟩ 7).exited = some (7 % 256) ∧
      kernelStep okKernel (fun _ => 0) (HelloWorld.exit okKernel (fun _ => 0) ⟨[], none⟩ 7) 1 1 0 5
        = (HelloWorld.exit okKernel (fun _ => 0) ⟨[], none⟩ 7, 0) ∧
      SimpleExit.exit okKernel (fun _ => 0) ⟨[], none⟩ 7
        = HelloWorld.exit okKernel (fun _ => 0) ⟨[], none⟩ 7 ∧
      WorkingHello.exit_syscall okKernel (fun _ => 0) ⟨[], none⟩ 7
        = HelloWorld.exit okKernel (fun _ => 0) ⟨[], none⟩ 7) :=
  ⟨rfl, C1_exit_never_returns okKernel okKernel (fun _ => 0) (fun _ => 0) ⟨[], none⟩ 7 1 1 0 5 rfl⟩

/-- C5: `exit` passes the status to the kernel unchanged (it is literally the
trampoline call on the exit code with the raw status); the environment then
records `s % 256` as the observed exit status, so statuses in [0, 255] are
observed as themselves and 300 is observed as 44. -/
theorem C5_exit_status_mod_256 (kw : Int → Int → Int → Int) (mem : Nat → Nat)
    (st : KernelState) (s : Int) (h : st.exited = none) :
    HelloWorld.exit kw mem st s = (HelloWorld.syscall kw mem st SYS_EXIT s 0 0).1 ∧
    (HelloWorld.exit kw mem st s).exited = some (s % 256) ∧
    (0 ≤ s → s < 256 → (HelloWorld.exit kw mem st s).exited = some s) ∧
    (HelloWorld.exit kw mem st 300).exited = some 44 := by
  have hx : ∀ t : Int, (HelloWorld.exit kw mem st t).exited = some (t % 256) := by
    intro t
    simp [HelloWorld.exit, HelloWorld.syscall, kernelStep, h]
  refine ⟨rfl, hx s, ?_, ?_⟩
  · intro h0 h1
    rw [hx s, Int.emod_eq_of_lt h0 h1]
  · rw [hx 300]
    norm_num

/-- Witness for C5 at status 300: the observed exit status is 44. -/
theorem C5_witness :
    (⟨[], none⟩ : KernelState).exited = none ∧
    (HelloWorld.exit okKernel (fun _ => 0) ⟨[], none⟩ 300
        = (HelloWorld.syscall okKernel (fun _ => 0) ⟨[], none⟩ SYS_EXIT 300 0 0).1 ∧
      (HelloWorld.exit okKernel (fun _ => 0) ⟨[], none⟩ 300).exited = some (300 % 256) ∧
      ((0 : Int) ≤ 300 → (300 : Int) < 256 →
        (HelloWorld.exit okKernel (fun _ => 0) ⟨[], none⟩ 300).exited = some 300) ∧
      (HelloWorld.exit okKernel (fun _ => 0) ⟨[], none⟩ 300).exited = some 44) :=
  ⟨rfl, C5_exit_status_mod_256 okKernel (fun _ => 0) ⟨[], none⟩ 300 rfl⟩

/-- C6: each hello program (hello_world.c, working_hello.c, inline_hello.c)
writes the 13-byte sequence "Hello World!\n" to standard output and then
terminates with status 0: the final observable state is exactly those 13
bytes on stdout — nothing more — and exit status 0. -/
theorem C6_hello_end_to_end :
    HelloWorld.main okKernel ⟨[], none⟩ = some ⟨HelloWorld.helloStr, some 0⟩ ∧
    WorkingHello.main okKernel ⟨[], none⟩ = ⟨WorkingHello.hello_msg, some 0⟩ ∧
    InlineHello.main okKernel ⟨[], none⟩ = ⟨WorkingHello.hello_msg, some 0⟩ ∧
    HelloWorld.helloStr.length = 13 ∧ WorkingHello.hello_msg = HelloWorld.helloStr := by
  refine ⟨?_, ?_, ?_, rfl, rfl⟩ <;> decide

/-- C7: simple_test.c computes `add_two_numbers(global_number, 42)` with
`global_number = 100`, reduces it mod 256, and the process exits with status
exactly 142 producing no output. -/
theorem C7_simple_test_exit_142 :
    SimpleTest.main = 142 ∧
    SimpleTest.run okKernel ⟨[], none⟩ = ⟨[], some 142⟩ := by
  constructor <;> decide

/-- C8: a write of count 0 (under the kernel that accepts every write)
returns 0 and leaves the observable state untouched — no bytes become
visible on any stream — for every handle and buffer address, in both
`write` (hello_world.c) and `write_syscall` (working_hello.c). -/
theorem C8_write_zero_count (mem : Nat → Nat) (st : KernelState) (fd buf : Int) :
    HelloWorld.write okKernel mem st fd buf 0 = (st, 0) ∧
    WorkingHello.write_syscall okKernel mem st fd buf 0 = (st, 0) := by
  have key : kernelStep okKernel mem st SYS_WRITE fd buf 0 = (st, 0) := by
    by_cases he : st.exited.isSome
    · simp [kernelStep, he]
    · by_cases hfd : fd = STDOUT_FILENO
      · simp [kernelStep, SYS_WRITE, SYS_EXIT, he, hfd, okKernel, readBytes]
      · simp [kernelStep, SYS_WRITE, SYS_EXIT, he, hfd, okKernel]
  exact ⟨key, key⟩

/-- C9: `printf` (printf_stub.c) emits its format string verbatim to
standard output — exactly the bytes before the null terminator, with no
placeholder interpretation and no variadic argument consumed — and it does
so for every format string. -/
theorem C9_printf_verbatim (mem : Nat → Nat) (st : KernelState) (a L fuel : Nat)
    (hnz : ∀ i, i < L → mem (a + i) ≠ 0) (hz : mem (a + L) = 0) (hf : L < fuel)
    (hrun : st.exited = none) :
    PrintfStub.printf okKernel mem fuel st a
      = some ({ st with stdout := st.stdout ++ readBytes mem a L }, Int.ofNat L) := by
  have hlen : PrintfStub.my_strlen mem a fuel = some L := by
    rw [PrintfStub.my_strlen, my_strlenAux_eq]
    exact strlenAux_first_zero mem a L hnz hz fuel 0 (Nat.zero_le L) (by omega)
  simp only [PrintfStub.printf, hlen]
  simp [PrintfStub.sys_write, kernelStep, SYS_WRITE, SYS_EXIT, STDOUT_FILENO, hrun, okKernel]

/-- Witness for C9 on the format string "%d!\n": the placeholder bytes are
emitted verbatim. -/
theorem C9_witness :
    (∀ i, i < 4 → (fun j => [37, 100, 33, 10].getD j 0) (0 + i) ≠ 0) ∧
    (fun j => [37, 100, 33, 10].getD j 0) (0 + 4) = 0 ∧
    (⟨[], none⟩ : KernelState).exited = none ∧
    PrintfStub.printf okKernel (fun j => [37, 100, 33, 10].getD j 0) 5 ⟨[], none⟩ 0
      = some (⟨[] ++ readBytes (fun j => [37, 100, 33, 10].getD j 0) 0 4, none⟩, Int.ofNat 4) :=
  ⟨by decide, by decide, rfl,
    C9_printf_verbatim (fun j => [37, 100, 33, 10].getD j 0) ⟨[], none⟩ 0 4 5
      (by decide) (by decide) (by decide) rfl⟩

/-- C10: `printf` returns `my_strlen(format)` whatever the underlying write
does: the `sys_write` result is discarded, so the return value coincides for
any two kernel write oracles (success, failure, or short write) and any two
starting states. -/
theorem C10_printf_return_ignores_write (kw kw2 : Int → Int → Int → Int)
    (mem : Nat → Nat) (fuel : Nat) (st st2 : KernelState) (a : Nat) :
    (PrintfStub.printf kw mem fuel st a).map Prod.snd
      = (PrintfStub.my_strlen mem a fuel).map Int.ofNat ∧
    (PrintfStub.printf kw mem fuel st a).map Prod.snd
      = (PrintfStub.printf kw2 mem fuel st2 a).map Prod.snd := by
  cases h : PrintfStub.my_strlen mem a fuel with
  | none => simp [PrintfStub.printf, h]
  | some len => simp [PrintfStub.printf, h]

end MiniElf
